import Mathlib

/-!
  Verification of the image-analysis HTTP gateway (proxy server).

  The embedding below is a shallow model of the request path of the server in
  src/unnamed/part_000 (the fuller of the two server files; src/proxy-server.js
  is an earlier variant of the same handler).  Pure request/response logic is
  modelled as Lean functions; the single outbound HTTP call is modelled by an
  explicit parameter describing how the upstream behaves, and the axios client
  semantics (resolve on 2xx, reject otherwise, reject with a timeout code on
  ECONNABORTED) is a separate classification function.  The express-rate-limit
  fixed-window counter is modelled as explicit state threaded through a list of
  sequential requests from one client identifier inside one window.
-/

namespace Proxy

/-- JSON values as the gateway sees them: upstream payloads are opaque values
that are carried around, error bodies are small objects built by the handler. -/
inductive Json where
  | null : Json
  | str : String → Json
  | num : Int → Json
  | obj : List (String × Json) → Json

/-- Field lookup in a JSON object; none on non-objects. -/
def Json.lookup : Json → String → Option Json
  | Json.obj kvs, k => (kvs.find? (fun p => p.1 == k)).map (fun p => p.2)
  | _, _ => none

/-- Whether a JSON value is an object carryng the given key. -/
def Json.hasKey (j : Json) (k : String) : Bool :=
  (j.lookup k).isSome

/-- An HTTP response body: res.json sends a JSON value, res.send a plain string
(the express-rate-limit default handler sends its message with res.send). -/
inductive Body where
  | json : Json → Body
  | text : String → Body

/-- A body satisfies the error-shape invariant when it is JSON with an error key. -/
def Body.isJsonWithError : Body → Bool
  | Body.json j => j.hasKey "error"
  | Body.text _ => false

/-- An HTTP response produced by the gateway. -/
structure HttpResponse where
  status : Nat
  body : Body

/-- The multer-parsed upload: req.file with buffer, originalname and mimetype
(src/unnamed/part_000 lines 108-111). -/
structure UploadedFile where
  buffer : List Nat
  originalname : String
  mimetype : String

/-- The inbound /analyze request as the handler sees it: optional req.file and
the optional text field req.body.context_json. -/
structure AnalyzeRequest where
  file : Option UploadedFile
  context_json : Option String

/-- One part of the outbound multipart form-data body. -/
inductive FormPart where
  | filePart (field : String) (buffer : List Nat) (filename : String) (contentType : String)
  | textPart (field : String) (value : String)

/-- Whether a part is a plain text part. -/
def FormPart.isText : FormPart → Bool
  | FormPart.textPart _ _ => true
  | _ => false

/-- Whether a multipart body contains any text part. -/
def hasTextPart (parts : List FormPart) : Bool :=
  parts.any FormPart.isText

/-- JavaScript truthiness of the optional string field: undefined and the empty
string are falsy, every other string is truthy. -/
def jsTruthy : Option String → Bool
  | none => false
  | some s => s != ""

/-- FormData construction of the /analyze handler (src/unnamed/part_000 lines
107-115): always append the image part from the uploaded file, then append
context_json only when req.body.context_json is truthy. -/
def buildFormData (f : UploadedFile) (ctx : Option String) : List FormPart :=
  let fd := [FormPart.filePart "image" f.buffer f.originalname f.mimetype]
  if jsTruthy ctx then fd ++ [FormPart.textPart "context_json" (ctx.getD "")] else fd

/-- The raw upstream HTTP response (status and JSON payload). -/
structure UpstreamResponse where
  status : Nat
  data : Json

/-- How the upstream service behaves for one outbound call: it answers with some
status and body, or the call times out, or it fails at the transport level. -/
inductive UpstreamBehavior where
  | respond (r : UpstreamResponse)
  | timeout
  | transportFailure

/-- Outcome of the awaited axios.post as the catch block distinguishes them:
resolved, rejected with error.response set, rejected with code ECONNABORTED, or
rejected with neither (transport failure). -/
inductive AxiosResult where
  | resolved (r : UpstreamResponse)
  | rejectedResponse (r : UpstreamResponse)
  | rejectedTimeout
  | rejectedTransport

/-- Default axios validateStatus: resolve exactly on 2xx statuses. -/
def validateStatus (s : Nat) : Bool :=
  decide (200 ≤ s) && decide (s < 300)

/-- axios.post semantics over the modelled upstream behaviour. -/
def axiosPost : UpstreamBehavior → AxiosResult
  | UpstreamBehavior.respond r =>
      if validateStatus r.status then AxiosResult.resolved r
      else AxiosResult.rejectedResponse r
  | UpstreamBehavior.timeout => AxiosResult.rejectedTimeout
  | UpstreamBehavior.transportFailure => AxiosResult.rejectedTransport

/-- Body of the 400 response for a missing file (part_000 line 104). -/
def noImageBody : Json :=
  Json.obj [("error", Json.str "No image file provided")]

/-- Body of the 504 response on timeout (part_000 lines 140-142). -/
def timeoutBody : Json :=
  Json.obj [("error", Json.str "Analysis timeout")]

/-- Body of the upstream-error response (part_000 lines 146-149): an error
marker plus the raw upstream payload under details. -/
def serviceErrorBody (details : Json) : Json :=
  Json.obj [("error", Json.str "Analysis service error"), ("details", details)]

/-- Body of the generic 500 response (part_000 lines 152-154 and 159-164). -/
def internalErrorBody : Json :=
  Json.obj [("error", Json.str "Internal server error")]

/-- The configured outbound timeout in milliseconds (part_000 line 127). -/
def axiosTimeoutMs : Nat := 120000

/-- The configured outbound body-size ceiling in bytes (part_000 lines 128-129). -/
def maxBodyLengthBytes : Nat := 100 * 1024 * 1024

/-- Result of running the /analyze handler: the HTTP response together with the
multipart body of the outbound call, or none when no outbound call was made. -/
structure HandlerResult where
  response : HttpResponse
  outbound : Option (List FormPart)

/-- The /analyze handler (src/unnamed/part_000 lines 98-156): reject with 400
when no file is present without calling upstream; otherwise build the form
data, issue the outbound call, and map its outcome: resolved gives 200 with the
upstream data relayed as is, ECONNABORTED gives 504, an upstream error status
is mirrored with an error body wrapping the upstream payload, and any other
failure gives a generic 500. -/
def analyzeHandler (req : AnalyzeRequest) (upstream : UpstreamBehavior) : HandlerResult :=
  match req.file with
  | none => ⟨⟨400, Body.json noImageBody⟩, none⟩
  | some f =>
      let fd := buildFormData f req.context_json
      match axiosPost upstream with
      | AxiosResult.resolved r => ⟨⟨200, Body.json r.data⟩, some fd⟩
      | AxiosResult.rejectedTimeout => ⟨⟨504, Body.json timeoutBody⟩, some fd⟩
      | AxiosResult.rejectedResponse r =>
          ⟨⟨r.status, Body.json (serviceErrorBody r.data)⟩, some fd⟩
      | AxiosResult.rejectedTransport => ⟨⟨500, Body.json internalErrorBody⟩, some fd⟩

/-- The origins hard-coded in the CORS callback (part_000 lines 23-35). -/
def allowedOriginsBase : List String :=
  ["http://localhost:5500",
   "http://localhost:5501",
   "http://localhost:5502",
   "http://127.0.0.1:5500",
   "http://127.0.0.1:5501",
   "http://127.0.0.1:5502",
   "http://localhost:3000",
   "http://localhost:8080",
   "https://chestexpertprime.vercel.app",
   "platform.dasmedhub.com",
   "https://proxy-twjq.onrender.com"]

/-- The extra origins taken from the ALLOWED_ORIGINS environment variable: the
variable is split on commas when it is set and truthy (part_000 lines 38-41). -/
def envOriginsList : Option String → List String
  | some s => if s != "" then s.splitOn "," else []
  | none => []

/-- The CORS origin callback (part_000 lines 19-49): requests with no Origin
header are allowed; otherwise the origin is allowed when it is in the combined
list by exact string match, or when NODE_ENV is anything but production. -/
def corsDecision (nodeEnv : Option String) (envAllowed : Option String) :
    Option String → Bool
  | none => true
  | some o =>
      (allowedOriginsBase ++ envOriginsList envAllowed).contains o
        || !(nodeEnv == some "production")

/-- Rate limiter window length in milliseconds (part_000 line 62). -/
def limiterWindowMs : Nat := 15 * 60 * 1000

/-- Rate limiter quota per client identifier per window (part_000 line 63). -/
def limiterMax : Nat := 50

/-- The express-rate-limit default message, sent via res.send as plain text
(also the explicit message configured in src/proxy-server.js lines 20-24). -/
def limiterMessage : String := "Too many requests, please try again later."

/-- The rate-limited response: status 429 with the plain-text message body. -/
def rateLimitedResponse : HttpResponse :=
  ⟨429, Body.text limiterMessage⟩

/-- The response of the final error-handling middleware (part_000 lines
159-164), which also answers requests whose CORS callback produced an error. -/
def errorMiddlewareResponse : HttpResponse :=
  ⟨500, Body.json internalErrorBody⟩

/-- Environment configuration relevant to the request path. -/
structure Env where
  nodeEnv : Option String
  allowedOrigins : Option String

/-- An inbound POST /analyze request before the middleware chain. -/
structure InboundRequest where
  origin : Option String
  file : Option UploadedFile
  context_json : Option String

/-- Outcome of one inbound request through the full chain: the response, whether
the handler logic was reached, and the outbound multipart body when an upstream
call was made. -/
structure GatewayResult where
  response : HttpResponse
  handlerReached : Bool
  outbound : Option (List FormPart)

/-- One request through the middleware chain of POST /analyze: the CORS layer
(an error there goes to the error middleware and the limiter is not touched),
then the fixed-window limiter (increment the hit count, reject with 429 once
the count exceeds the quota), then the handler.  The second component is the
hit count after the request. -/
def gatewayAnalyze (env : Env) (priorHits : Nat) (req : InboundRequest)
    (upstream : UpstreamBehavior) : GatewayResult × Nat :=
  if corsDecision env.nodeEnv env.allowedOrigins req.origin then
    ((if priorHits + 1 ≤ limiterMax then
        let hr := analyzeHandler ⟨req.file, req.context_json⟩ upstream
        ⟨hr.response, true, hr.outbound⟩
      else ⟨rateLimitedResponse, false, none⟩),
     priorHits + 1)
  else
    (⟨errorMiddlewareResponse, false, none⟩, priorHits)

/-- Sequential requests from one client identifier within one limiter window:
the hit counter is threaded from request to request. -/
def runSequence (env : Env) : Nat → List (InboundRequest × UpstreamBehavior) → List GatewayResult
  | _, [] => []
  | h, p :: rest =>
      (gatewayAnalyze env h p.1 p.2).1 :: runSequence env (gatewayAnalyze env h p.1 p.2).2 rest

/-- The outbound multipart body as the amended specification describes it: a
file part with the inbound file bytes, filename and content type, followed by a
context_json text part exactly when that field was provided with a nonempty
value, and no text part otherwise. -/
def specOutboundParts (f : UploadedFile) (ctx : Option String) : List FormPart :=
  match ctx with
  | some s =>
      if s = "" then [FormPart.filePart "image" f.buffer f.originalname f.mimetype]
      else [FormPart.filePart "image" f.buffer f.originalname f.mimetype,
            FormPart.textPart "context_json" s]
  | none => [FormPart.filePart "image" f.buffer f.originalname f.mimetype]

/-- A concrete sample upload used by the concrete witnesses. -/
def sampleFile : UploadedFile :=
  ⟨[137, 80, 78, 71], "chest.png", "image/png"⟩

/-- A concrete sample upstream success payload. -/
def okJson : Json :=
  Json.obj [("result", Json.str "ok")]

/-- A concrete sample inbound request with no Origin header and a valid file. -/
def sampleInbound : InboundRequest :=
  ⟨none, some sampleFile, none⟩

/-- A concrete sample sequence step: the sample inbound request together with a
healthy upstream. -/
def sampleStep : InboundRequest × UpstreamBehavior :=
  ⟨sampleInbound, UpstreamBehavior.respond ⟨200, okJson⟩⟩

/-- Claim C1: for every /analyze request carrying a file, when the upstream
call succeeds with a 2xx status, the gateway responds with HTTP 200 and the
upstream JSON body relayed verbatim, with no reshaping or renaming. -/
theorem analyze_success_passthrough (req : AnalyzeRequest) (f : UploadedFile)
    (r : UpstreamResponse) (hf : req.file = some f)
    (h2xx : 200 ≤ r.status ∧ r.status < 300) :
    (analyzeHandler req (UpstreamBehavior.respond r)).response =
      ⟨200, Body.json r.data⟩ := by
  have hv : validateStatus r.status = true := by
    simp [validateStatus, h2xx.1, h2xx.2]
  simp [analyzeHandler, hf, axiosPost, hv]

/-- Concrete witness for C1: upstream answers 200 with a result payload and the
gateway relays it with status 200. -/
theorem analyze_success_passthrough_witness :
    (analyzeHandler ⟨some sampleFile, none⟩
        (UpstreamBehavior.respond ⟨200, okJson⟩)).response =
      ⟨200, Body.json okJson⟩ :=
  analyze_success_passthrough ⟨some sampleFile, none⟩ sampleFile ⟨200, okJson⟩ rfl
    (by decide)

/-- Claim C2: for every /analyze request without a file, the gateway responds
with HTTP 400 and a structured JSON error body, and no outbound call is made. -/
theorem analyze_missing_file (req : AnalyzeRequest) (upstream : UpstreamBehavior)
    (hf : req.file = none) :
    (analyzeHandler req upstream).response = ⟨400, Body.json noImageBody⟩ ∧
    (analyzeHandler req upstream).outbound = none ∧
    noImageBody.hasKey "error" = true := by
  refine ⟨?_, ?_, rfl⟩ <;> simp [analyzeHandler, hf]

/-- Concrete witness for C2: a request with no file and a live upstream still
yields 400 with the error body and no outbound call. -/
theorem analyze_missing_file_witness :
    (analyzeHandler ⟨none, none⟩ (UpstreamBehavior.respond ⟨200, okJson⟩)).response =
      ⟨400, Body.json noImageBody⟩ ∧
    (analyzeHandler ⟨none, none⟩ (UpstreamBehavior.respond ⟨200, okJson⟩)).outbound = none ∧
    noImageBody.hasKey "error" = true :=
  analyze_missing_file ⟨none, none⟩ (UpstreamBehavior.respond ⟨200, okJson⟩) rfl

/-- Claim C7: for every /analyze request with a file whose outbound call times
out, the gateway responds with HTTP 504 and the fixed timeout error message;
the configured outbound timeout is 120000 milliseconds. -/
theorem analyze_timeout_response (req : AnalyzeRequest) (f : UploadedFile)
    (hf : req.file = some f) :
    (analyzeHandler req UpstreamBehavior.timeout).response =
      ⟨504, Body.json timeoutBody⟩ ∧
    axiosTimeoutMs = 120000 := by
  refine ⟨?_, rfl⟩
  simp [analyzeHandler, hf, axiosPost]

/-- Concrete witness for C7. -/
theorem analyze_timeout_response_witness :
    (analyzeHandler ⟨some sampleFile, none⟩ UpstreamBehavior.timeout).response =
      ⟨504, Body.json timeoutBody⟩ ∧
    axiosTimeoutMs = 120000 :=
  analyze_timeout_response ⟨some sampleFile, none⟩ sampleFile rfl

/-- Claim C8: for every /analyze request with a file whose outbound call fails
at the transport level (neither a timeout nor an upstream-reported status), the
gateway responds with HTTP 500 and the generic error body. -/
theorem analyze_transport_failure (req : AnalyzeRequest) (f : UploadedFile)
    (hf : req.file = some f) :
    (analyzeHandler req UpstreamBehavior.transportFailure).response =
      ⟨500, Body.json internalErrorBody⟩ ∧
    internalErrorBody.hasKey "error" = true := by
  refine ⟨?_, rfl⟩
  simp [analyzeHandler, hf, axiosPost]

/-- Concrete witness for C8. -/
theorem analyze_transport_failure_witness :
    (analyzeHandler ⟨some sampleFile, none⟩ UpstreamBehavior.transportFailure).response =
      ⟨500, Body.json internalErrorBody⟩ ∧
    internalErrorBody.hasKey "error" = true :=
  analyze_transport_failure ⟨some sampleFile, none⟩ sampleFile rfl

/-- Counterexample to claim C3 as stated: here the context_json field is
provided (with the empty string as its value), yet the outbound multipart body
carries no text part at all, because the handler forwards the field only when
it is truthy. -/
theorem analyze_outbound_counterexample :
    (analyzeHandler ⟨some sampleFile, some ""⟩ UpstreamBehavior.timeout).outbound =
      some [FormPart.filePart "image" [137, 80, 78, 71] "chest.png" "image/png"] ∧
    hasTextPart [FormPart.filePart "image" [137, 80, 78, 71] "chest.png" "image/png"] =
      false := by
  exact ⟨rfl, rfl⟩

/-- Lemma: the FormData built by the handler equals the multipart body the
amended specification describes. -/
theorem buildFormData_eq_spec (f : UploadedFile) (ctx : Option String) :
    buildFormData f ctx = specOutboundParts f ctx := by
  cases ctx with
  | none => rfl
  | some s =>
      by_cases hs : s = ""
      · subst hs; rfl
      · simp [buildFormData, specOutboundParts, jsTruthy, hs]

/-- Claim C3 amended: for every /analyze request with a file and an optional
context_json field, the outbound multipart body contains a file part with the
inbound file bytes, filename and content type, and a context_json text part
equal to the inbound field exactly when that field is provided with a nonempty
value, and no text part otherwise. -/
theorem analyze_outbound_parts (f : UploadedFile) (ctx : Option String)
    (upstream : UpstreamBehavior) :
    (analyzeHandler ⟨some f, ctx⟩ upstream).outbound = some (specOutboundParts f ctx) := by
  have hb := buildFormData_eq_spec f ctx
  cases upstream with
  | respond r =>
      by_cases hv : validateStatus r.status = true
      · simp [analyzeHandler, axiosPost, hv, hb]
      · simp [analyzeHandler, axiosPost, hv, hb]
  | timeout => simp [analyzeHandler, axiosPost, hb]
  | transportFailure => simp [analyzeHandler, axiosPost, hb]

/-- Claim C10: a context_json field equal to the empty string is treated as if
absent: the outbound body has a text part exactly when the field is truthy, and
for the empty string the outbound body is the file part alone. -/
theorem context_json_truthiness (f : UploadedFile) (ctx : Option String)
    (upstream : UpstreamBehavior) :
    hasTextPart (buildFormData f ctx) = jsTruthy ctx ∧
    (analyzeHandler ⟨some f, some ""⟩ upstream).outbound =
      some [FormPart.filePart "image" f.buffer f.originalname f.mimetype] := by
  constructor
  · cases ctx with
    | none => rfl
    | some s =>
        by_cases hs : s = ""
        · subst hs; rfl
        · simp [buildFormData, hasTextPart, jsTruthy, hs, FormPart.isText]
  · cases upstream with
    | respond r =>
        by_cases hv : validateStatus r.status = true
        · simp [analyzeHandler, axiosPost, hv, buildFormData, jsTruthy]
        · simp [analyzeHandler, axiosPost, hv, buildFormData, jsTruthy]
    | timeout => simp [analyzeHandler, axiosPost, buildFormData, jsTruthy]
    | transportFailure => simp [analyzeHandler, axiosPost, buildFormData, jsTruthy]

/-- Claim C6: for every /analyze request with a file whose upstream answers
with a non-2xx status, the gateway status equals the upstream status and the
body is JSON with an error marker plus the raw upstream payload under the
details key. -/
theorem analyze_upstream_error (req : AnalyzeRequest) (f : UploadedFile)
    (r : UpstreamResponse) (hf : req.file = some f)
    (hbad : ¬ (200 ≤ r.status ∧ r.status < 300)) :
    (analyzeHandler req (UpstreamBehavior.respond r)).response.status = r.status ∧
    (analyzeHandler req (UpstreamBehavior.respond r)).response.body =
      Body.json (serviceErrorBody r.data) ∧
    (serviceErrorBody r.data).hasKey "error" = true ∧
    (serviceErrorBody r.data).lookup "details" = some r.data := by
  have hv : validateStatus r.status = false := by
    simp only [validateStatus, Bool.and_eq_false_iff, decide_eq_false_iff_not]
    omega
  refine ⟨?_, ?_, rfl, rfl⟩ <;> simp [analyzeHandler, hf, axiosPost, hv]

/-- Concrete witness for C6: upstream answers 422 with a detail payload and the
gateway mirrors the 422 with the wrapped payload. -/
theorem analyze_upstream_error_witness :
    (analyzeHandler ⟨some sampleFile, none⟩
        (UpstreamBehavior.respond ⟨422, Json.obj [("detail", Json.str "bad image")]⟩)).response.status = 422 ∧
    (analyzeHandler ⟨some sampleFile, none⟩
        (UpstreamBehavior.respond ⟨422, Json.obj [("detail", Json.str "bad image")]⟩)).response.body =
      Body.json (serviceErrorBody (Json.obj [("detail", Json.str "bad image")])) ∧
    (serviceErrorBody (Json.obj [("detail", Json.str "bad image")])).hasKey "error" = true ∧
    (serviceErrorBody (Json.obj [("detail", Json.str "bad image")])).lookup "details" =
      some (Json.obj [("detail", Json.str "bad image")]) :=
  analyze_upstream_error ⟨some sampleFile, none⟩ sampleFile
    ⟨422, Json.obj [("detail", Json.str "bad image")]⟩ rfl (by decide)

/-- Counterexample to claim C5 as stated: with NODE_ENV set to development, an
origin that is on neither the hard-coded allow-list nor the environment list is
still granted access, so the claimed equivalence fails in the only-if
direction. -/
theorem cors_allowlist_counterexample :
    corsDecision (some "development") none (some "http://evil.example") = true ∧
    (allowedOriginsBase ++ envOriginsList none).contains "http://evil.example" = false := by
  exact ⟨rfl, rfl⟩

/-- Claim C5 amended: a request with an Origin header is granted cross-origin
access exactly when the origin matches the combined allow-list (hard-coded list
plus the comma-separated environment list) by exact string comparison, or
NODE_ENV is anything other than production; a request with no Origin header is
always allowed. -/
theorem cors_origin_decision (nodeEnv envAllowed : Option String) (o : String) :
    (corsDecision nodeEnv envAllowed (some o) = true ↔
      ((allowedOriginsBase ++ envOriginsList envAllowed).contains o = true ∨
        nodeEnv ≠ some "production")) ∧
    corsDecision nodeEnv envAllowed none = true := by
  refine ⟨?_, rfl⟩
  simp [corsDecision, Bool.or_eq_true, Bool.not_eq_true']

/-- Counterexample to claim C9 as stated: the rate-limit rejection is an error
response (status 429) whose body is the plain-text limiter message, not JSON,
so it carries no error field. -/
theorem error_body_counterexample :
    (gatewayAnalyze ⟨some "production", none⟩ limiterMax ⟨none, some sampleFile, none⟩
        (UpstreamBehavior.respond ⟨200, okJson⟩)).1.response = rateLimitedResponse ∧
    400 ≤ rateLimitedResponse.status ∧
    rateLimitedResponse.body.isJsonWithError = false := by
  exact ⟨rfl, by decide, rfl⟩

/-- Claim C9 amended: every error response of the gateway other than the
rate-limit rejection carries a JSON body with an error field (client-input 400,
timeout 504, upstream-mirrored error, transport 500, CORS rejection through the
error middleware, and the error middleware fallback itself); the rate-limit
rejection instead carries the fixed plain-text limiter message. -/
theorem error_body_invariant (env : Env) (hits : Nat) (req : InboundRequest)
    (upstream : UpstreamBehavior) :
    ((gatewayAnalyze env hits req upstream).1.response.body.isJsonWithError = true ∨
      (gatewayAnalyze env hits req upstream).1.response = rateLimitedResponse ∨
      (gatewayAnalyze env hits req upstream).1.response.status < 400) ∧
    errorMiddlewareResponse.body.isJsonWithError = true := by
  refine ⟨?_, rfl⟩
  by_cases hc : corsDecision env.nodeEnv env.allowedOrigins req.origin = true
  · by_cases hm : hits + 1 ≤ limiterMax
    · cases hfile : req.file with
      | none =>
          left
          simp [gatewayAnalyze, hc, hm, analyzeHandler, hfile]
          rfl
      | some f =>
          cases upstream with
          | respond r =>
              by_cases hv : validateStatus r.status = true
              · right; right
                simp [gatewayAnalyze, hc, hm, analyzeHandler, hfile, axiosPost, hv]
              · left
                simp [gatewayAnalyze, hc, hm, analyzeHandler, hfile, axiosPost, hv]
                rfl
          | timeout =>
              left
              simp [gatewayAnalyze, hc, hm, analyzeHandler, hfile, axiosPost]
              rfl
          | transportFailure =>
              left
              simp [gatewayAnalyze, hc, hm, analyzeHandler, hfile, axiosPost]
              rfl
    · right; left
      simp [gatewayAnalyze, hc, hm]
  · left
    have hc' : corsDecision env.nodeEnv env.allowedOrigins req.origin = false :=
      Bool.not_eq_true _ ▸ by simpa using hc
    simp [gatewayAnalyze, hc']
    rfl

/-- Lemma: past the quota, every later request in the sequence is answered with
the rate-limited response, never reaches the handler, and triggers no outbound
call. -/
theorem runSequence_get_limited (env : Env)
    (reqs : List (InboundRequest × UpstreamBehavior)) (h i : Nat)
    (hcors : ∀ p ∈ reqs, corsDecision env.nodeEnv env.allowedOrigins p.1.origin = true)
    (hge : limiterMax ≤ h + i) :
    (runSequence env h reqs).get? i =
      if i < reqs.length then some ⟨rateLimitedResponse, false, none⟩ else none := by
  induction reqs generalizing h i with
  | nil => simp [runSequence]
  | cons p rest ih =>
      have hc : corsDecision env.nodeEnv env.allowedOrigins p.1.origin = true :=
        hcors p (List.mem_cons_self _ _)
      cases i with
      | zero =>
          have hm : ¬ (h + 1 ≤ limiterMax) := by omega
          simp [runSequence, gatewayAnalyze, hc, hm]
      | succ j =>
          have hrest : ∀ p ∈ rest,
              corsDecision env.nodeEnv env.allowedOrigins p.1.origin = true :=
            fun q hq => hcors q (List.mem_cons_of_mem _ hq)
          have hsnd : (gatewayAnalyze env h p.1 p.2).2 = h + 1 := by
            simp [gatewayAnalyze, hc]
          have := ih (h + 1) j hrest (by omega)
          simp only [runSequence, List.get?_cons_succ, hsnd, this,
            List.length_cons, Nat.add_lt_add_iff_right]

/-- Lemma: starting from a hit count of h, at most limiterMax minus h of the
sequential requests reach the handler logic. -/
theorem runSequence_countP (env : Env) (h : Nat)
    (reqs : List (InboundRequest × UpstreamBehavior)) :
    ((runSequence env h reqs).countP (fun g => g.handlerReached)) ≤ limiterMax - h := by
  induction reqs generalizing h with
  | nil => simp [runSequence]
  | cons p rest ih =>
      by_cases hc : corsDecision env.nodeEnv env.allowedOrigins p.1.origin = true
      · by_cases hm : h + 1 ≤ limiterMax
        · have := ih (h + 1)
          simp only [runSequence, gatewayAnalyze, hc, if_true, hm, List.countP_cons]
          simp only [gatewayAnalyze, hc, if_true] at this ⊢
          simp [hm] at this ⊢
          omega
        · have := ih (h + 1)
          simp only [runSequence, gatewayAnalyze, hc, if_true, hm, List.countP_cons]
          simp only [gatewayAnalyze, hc, if_true] at this ⊢
          simp [hm] at this ⊢
          omega
      · have hc' : corsDecision env.nodeEnv env.allowedOrigins p.1.origin = false :=
          Bool.not_eq_true _ ▸ by simpa using hc
        have := ih h
        simp only [runSequence, gatewayAnalyze, hc', List.countP_cons]
        simp only [gatewayAnalyze, hc'] at this ⊢
        simp at this ⊢
        omega

/-- Claim C4: over a sequence of requests to /analyze from one client
identifier within one fixed window, all passing the CORS layer, at most 50
requests reach the handler logic, and every request past the quota (in
particular the 51st, index 50) is rejected with the rate-limited response
before the handler runs and triggers no outbound call. -/
theorem analyze_rate_limit (env : Env)
    (reqs : List (InboundRequest × UpstreamBehavior)) (i : Nat)
    (hcors : ∀ p ∈ reqs, corsDecision env.nodeEnv env.allowedOrigins p.1.origin = true)
    (hge : limiterMax ≤ i) :
    ((runSequence env 0 reqs).countP (fun g => g.handlerReached)) ≤ limiterMax ∧
    (runSequence env 0 reqs).get? i =
      (if i < reqs.length then some ⟨rateLimitedResponse, false, none⟩ else none) := by
  constructor
  · simpa using runSequence_countP env 0 reqs
  · exact runSequence_get_limited env reqs 0 i hcors (by omega)

/-- Concrete witness for C4: 51 identical requests (no Origin header, valid
file, healthy upstream) from one client in one window; the count of requests
reaching the handler is at most 50 and the request at index 50 is rejected. -/
theorem analyze_rate_limit_witness :
    ((runSequence ⟨none, none⟩ 0 (List.replicate 51 sampleStep)).countP
      (fun g => g.handlerReached)) ≤ limiterMax ∧
    (runSequence ⟨none, none⟩ 0 (List.replicate 51 sampleStep)).get? 50 =
      (if 50 < (List.replicate 51 sampleStep).length then
        some ⟨rateLimitedResponse, false, none⟩ else none) :=
  analyze_rate_limit ⟨none, none⟩ (List.replicate 51 sampleStep) 50
    (fun p hp => by
      have := List.eq_of_mem_replicate hp
      subst this
      rfl)
    (by decide)

end Proxy
